import Mathlib

/-!
Verification of `swig/python2/examples/pytho2_application_example.py`,
a sysrepo example script that dumps the startup configuration of a
module and subscribes to changes of its running configuration.

The script is embedded shallowly: each Python `print` statement is
modelled as the string it writes to standard output, a function that
performs several prints returns the list of those strings, and the
fallible calls into the external sysrepo library are modelled with
`Except String` (a raised Python exception is represented by the
message that `print e` would show).
-/

/-- The type tags of sysrepo values (`sr_type_t` of the wrapped
library).  The first seventeen constructors are the tags that the
dispatch in `print_value` handles; the remaining constructors model
tags of the external library that the example script does not
recognise and that therefore fall into its final `else` branch. -/
inductive SrType where
  | SR_CONTAINER_T
  | SR_CONTAINER_PRESENCE_T
  | SR_LIST_T
  | SR_STRING_T
  | SR_BOOL_T
  | SR_ENUM_T
  | SR_UINT8_T
  | SR_UINT16_T
  | SR_UINT32_T
  | SR_UINT64_T
  | SR_INT8_T
  | SR_INT16_T
  | SR_INT32_T
  | SR_INT64_T
  | SR_IDENTITYREF_T
  | SR_BITS_T
  | SR_BINARY_T
  | SR_UNKNOWN_T
  | SR_LEAF_EMPTY_T
  | SR_DECIMAL64_T
  | SR_INSTANCEID_T
  | SR_ANYXML_T
  | SR_ANYDATA_T
  | SR_TREE_ITERATOR_T
  deriving DecidableEq, Repr, Inhabited

/-- The payload of a value, accessed through the per-type accessors of
`value.data()`.  Each accessor is modelled as a field; only the field
selected by the type tag is meaningful for a given value. -/
structure Data where
  get_string : String
  get_bool : Bool
  get_enum : String
  get_uint8 : Nat
  get_uint16 : Nat
  get_uint32 : Nat
  get_uint64 : Nat
  get_int8 : Int
  get_int16 : Int
  get_int32 : Int
  get_int64 : Int
  get_identityref : String
  get_bits : String
  get_binary : String
  deriving Repr, Inhabited, DecidableEq

/-- A tagged configuration value as returned by the session: a path
(`xpath()`), a type tag (`type()`) and a payload (`data()`). -/
structure Value where
  xpath : String
  type : SrType
  data : Data
  deriving Repr, Inhabited, DecidableEq

/-- Python 2 `repr` of a character string, as used by the script on the
string-valued accessors (`get_identityref`, `get_bits`, `get_binary`):
the text wrapped in single quotes.  The payloads in question carry no
quote or escape characters, so no escaping is modelled. -/
def reprPyStr (s : String) : String := "\x27" ++ s ++ "\x27"

/-- The body printed by `print_value` after the path: the `elif` chain
dispatching on the type tag of the value, with the literal
`(unprintable)` as the final `else` branch.  Python 2 `repr` of a
machine integer is its decimal notation, modelled with `toString`. -/
def print_value_body (value : Value) : String :=
  if value.type = SrType.SR_CONTAINER_T then "(container)"
  else if value.type = SrType.SR_CONTAINER_PRESENCE_T then "(container)"
  else if value.type = SrType.SR_LIST_T then "(list instance)"
  else if value.type = SrType.SR_STRING_T then "= " ++ value.data.get_string
  else if value.type = SrType.SR_BOOL_T then
    if value.data.get_bool then "= true" else "= false"
  else if value.type = SrType.SR_ENUM_T then "= " ++ value.data.get_enum
  else if value.type = SrType.SR_UINT8_T then "= " ++ toString value.data.get_uint8
  else if value.type = SrType.SR_UINT16_T then "= " ++ toString value.data.get_uint16
  else if value.type = SrType.SR_UINT32_T then "= " ++ toString value.data.get_uint32
  else if value.type = SrType.SR_UINT64_T then "= " ++ toString value.data.get_uint64
  else if value.type = SrType.SR_INT8_T then "= " ++ toString value.data.get_int8
  else if value.type = SrType.SR_INT16_T then "= " ++ toString value.data.get_int16
  else if value.type = SrType.SR_INT32_T then "= " ++ toString value.data.get_int32
  else if value.type = SrType.SR_INT64_T then "= " ++ toString value.data.get_int64
  else if value.type = SrType.SR_IDENTITYREF_T then "= " ++ reprPyStr value.data.get_identityref
  else if value.type = SrType.SR_BITS_T then "= " ++ reprPyStr value.data.get_bits
  else if value.type = SrType.SR_BINARY_T then "= " ++ reprPyStr value.data.get_binary
  else "(unprintable)"

/-- Everything one call of `print_value` writes.  In Python 2,
`print value.xpath() + " ",` writes the path followed by one explicit
space and arms the soft-space flag, so the following `print body`
writes one further space, the body, and a newline. -/
def print_value (value : Value) : String :=
  value.xpath ++ " " ++ " " ++ print_value_body value ++ "\n"

/-- Whether a type tag is one of the seventeen kinds enumerated by the
dispatch of `print_value`. -/
def handled_tag : SrType → Bool
  | SrType.SR_CONTAINER_T | SrType.SR_CONTAINER_PRESENCE_T
  | SrType.SR_LIST_T | SrType.SR_STRING_T | SrType.SR_BOOL_T
  | SrType.SR_ENUM_T
  | SrType.SR_UINT8_T | SrType.SR_UINT16_T
  | SrType.SR_UINT32_T | SrType.SR_UINT64_T
  | SrType.SR_INT8_T | SrType.SR_INT16_T
  | SrType.SR_INT32_T | SrType.SR_INT64_T
  | SrType.SR_IDENTITYREF_T | SrType.SR_BITS_T | SrType.SR_BINARY_T => true
  | _ => false

/-- The countable, indexable collection of values returned by
`session.get_items`. -/
structure ValueCollection where
  vals : List Value
  deriving Repr, Inhabited

/-- Model of `values.val_cnt()`: the number of values in the
collection. -/
def ValueCollection.val_cnt (values : ValueCollection) : Nat :=
  values.vals.length

/-- Model of `values.val(i)`: the value at index `i`; the script only
calls it for `i < val_cnt()`. -/
def ValueCollection.val (values : ValueCollection) (i : Nat) : Value :=
  values.vals.getD i default

/-- A session in the pure model: its only operation used by the dumper
is `get_items`, a query returning the collection of values matching an
xpath pattern. -/
structure Session where
  get_items : String → ValueCollection

/-- Model of `print_current_config(session, module_name)`: build the select
pattern, fetch the matching values and print each of them in index
order.  The result is the list of lines written, one per
`print_value` call. -/
def print_current_config (session : Session) (module_name : String) : List String :=
  let select_xpath := "/" ++ module_name ++ ":*//*"
  let values := session.get_items select_xpath
  (List.range values.val_cnt).map (fun i => print_value (values.val i))

/-- Model of `module_change_cb(sess, module_name, ...)`: print a header and
re-dump the whole current configuration of the module. -/
def module_change_cb (sess : Session) (module_name : String) : List String :=
  ("\n\n ========== CONFIG HAS CHANGED, CURRENT RUNNING CONFIG: ==========\n" ++ "\n")
    :: print_current_config sess module_name

/-- The choice of module name from the command line: the fixed default
`ietf-interfaces`, overridden by `sys.argv[1]` when
`len(sys.argv) > 1`. -/
def choose_module_name (argv : List String) : String :=
  if h : argv.length > 1 then argv.get ⟨1, h⟩ else "ietf-interfaces"

/-- The hint printed when no module name is passed on the command
line. -/
def arg_hint (argv : List String) : List String :=
  if argv.length > 1 then []
  else ["\nYou can pass the module name to be subscribed as the first argument" ++ "\n"]

/-- Trace of the startup sequence in the pure model: which module name
is passed to `module_change_subscribe`, which to
`print_current_config`, and the lines of the startup dump. -/
structure StartupCalls where
  subscribed_module : String
  dumped_module : String
  startup_output : List String
  deriving Repr

/-- The startup sequence of the program body in the pure model: one
`module_name` variable is chosen from `argv` and that same variable is
passed to the subscription and to the startup dump. -/
def run_startup (argv : List String) (sess : Session) : StartupCalls :=
  let module_name := choose_module_name argv
  { subscribed_module := module_name
    dumped_module := module_name
    startup_output := print_current_config sess module_name }

/-- A connection handle, as returned by `sr.Connection(app_name)`. -/
structure Conn where
  app_name : String

/-- A subscription handle, as returned by `sr.Subscribe(sess)`. -/
structure Subscr where
  handle : Nat

/-- A session in the exception-aware model: the `get_items` query may
raise, which is modelled by `Except.error` carrying the message that
`print e` would show for the exception. -/
structure SessionExc where
  get_items : String → Except String ValueCollection

/-- Exception-aware `print_current_config`: an exception raised by the
query propagates to the caller, otherwise the usual lines are
produced. -/
def print_current_config_exc (session : SessionExc) (module_name : String) :
    Except String (List String) :=
  let select_xpath := "/" ++ module_name ++ ":*//*"
  match session.get_items select_xpath with
  | Except.error e => Except.error e
  | Except.ok values =>
      Except.ok ((List.range values.val_cnt).map (fun i => print_value (values.val i)))

/-- The fallible operations of the external library that the program
body calls: connection and session construction, subscription setup,
and the blocking event loop. -/
structure Env where
  connection : String → Except String Conn
  session : Conn → Except String SessionExc
  subscribe : SessionExc → Except String Subscr
  module_change_subscribe : Subscr → String → Except String Unit
  global_loop : Except String Unit

/-- The program body with its two `try`/`except` sites.  An exception
raised by any library call before the startup read, or by the event
loop, propagates to the outer handler, which prints the message and
falls off the end; an exception raised inside the startup read is
caught by the inner handler, which prints the message and lets the
body continue to the event loop.  The result is the list of strings
printed, so by construction no exception escapes either site. -/
def run_program_exc (argv : List String) (env : Env) : List String :=
  let module_name := choose_module_name argv
  let out := arg_hint argv
  match env.connection "example_application" with
  | Except.error e => out ++ [e ++ "\n"]
  | Except.ok conn =>
  match env.session conn with
  | Except.error e => out ++ [e ++ "\n"]
  | Except.ok sess =>
  match env.subscribe sess with
  | Except.error e => out ++ [e ++ "\n"]
  | Except.ok subscr =>
  match env.module_change_subscribe subscr module_name with
  | Except.error e => out ++ [e ++ "\n"]
  | Except.ok _ =>
  let out := out ++ ["\n\n ========== READING STARTUP CONFIG: ==========\n" ++ "\n"]
  let out := out ++
    (match print_current_config_exc sess module_name with
     | Except.ok lines => lines
     | Except.error e => [e ++ "\n"])
  let out := out ++ ["\n\n ========== STARTUP CONFIG APPLIED AS RUNNING ==========\n" ++ "\n"]
  match env.global_loop with
  | Except.error e => out ++ [e ++ "\n"]
  | Except.ok _ => out ++ ["Application exit requested, exiting.\n" ++ "\n"]

/-- An environment in which every library call succeeds except the
`get_items` query, which raises; used to exhibit the inner handler. -/
def env_get_items_raises : Env where
  connection := fun app => Except.ok ⟨app⟩
  session := fun _ => Except.ok ⟨fun _ => Except.error "Request failed"⟩
  subscribe := fun _ => Except.ok ⟨0⟩
  module_change_subscribe := fun _ _ => Except.ok ()
  global_loop := Except.ok ()

/-- An environment in which the connection constructor raises; used to
exhibit the outer handler at the first raise site. -/
def env_connection_raises : Env where
  connection := fun _ => Except.error "Connecting to sysrepo failed"
  session := fun _ => Except.ok ⟨fun _ => Except.ok ⟨[]⟩⟩
  subscribe := fun _ => Except.ok ⟨0⟩
  module_change_subscribe := fun _ _ => Except.ok ()
  global_loop := Except.ok ()

/-- An environment in which the session constructor raises; used to
exhibit the outer handler at the second raise site. -/
def env_session_raises : Env where
  connection := fun app => Except.ok ⟨app⟩
  session := fun _ => Except.error "Session start failed"
  subscribe := fun _ => Except.ok ⟨0⟩
  module_change_subscribe := fun _ _ => Except.ok ()
  global_loop := Except.ok ()

/-- An environment in which the subscription constructor raises; used
to exhibit the outer handler at the third raise site. -/
def env_subscribe_raises : Env where
  connection := fun app => Except.ok ⟨app⟩
  session := fun _ => Except.ok ⟨fun _ => Except.ok ⟨[]⟩⟩
  subscribe := fun _ => Except.error "Subscribe constructor failed"
  module_change_subscribe := fun _ _ => Except.ok ()
  global_loop := Except.ok ()

/-- An environment in which registering the change callback raises;
used to exhibit the outer handler at the fourth raise site. -/
def env_mcs_raises : Env where
  connection := fun app => Except.ok ⟨app⟩
  session := fun _ => Except.ok ⟨fun _ => Except.ok ⟨[]⟩⟩
  subscribe := fun _ => Except.ok ⟨0⟩
  module_change_subscribe := fun _ _ => Except.error "Subscription failed"
  global_loop := Except.ok ()

/-- An environment in which setup and the startup read succeed but the
blocking event loop raises; used to exhibit the outer handler at the
last raise site. -/
def env_loop_raises : Env where
  connection := fun app => Except.ok ⟨app⟩
  session := fun _ => Except.ok ⟨fun _ => Except.ok ⟨[]⟩⟩
  subscribe := fun _ => Except.ok ⟨0⟩
  module_change_subscribe := fun _ _ => Except.ok ()
  global_loop := Except.error "Event loop interrupted"

theorem print_value_ne_empty (v : Value) : print_value v ≠ "" := by
  intro h
  have hl := congrArg String.length h
  simp [print_value, String.length_append] at hl
  exact absurd hl.2 (by decide)

/-- C1: the select pattern built by `print_current_config` for module
name `m` is exactly `/m:*//*`: the dump depends on the session only
through the item set it returns for that exact pattern. -/
theorem print_current_config_queries_exact_pattern
    (s1 s2 : Session) (m : String)
    (h : s1.get_items ("/" ++ m ++ ":*//*") = s2.get_items ("/" ++ m ++ ":*//*")) :
    print_current_config s1 m = print_current_config s2 m := by
  simp [print_current_config, h]

theorem print_current_config_queries_exact_pattern_witness :
    print_current_config ⟨fun _ => ⟨[]⟩⟩ "ietf-interfaces" =
      print_current_config ⟨fun p => ⟨if p = "/ietf-interfaces:*//*" then [] else [default]⟩⟩ "ietf-interfaces" :=
  print_current_config_queries_exact_pattern _ _ "ietf-interfaces" (by rfl)

/-- C2: the dumper emits exactly one formatted line per returned
value, in the order returned, so the output is the pointwise image of
the returned list under `print_value` and its length is `val_cnt`. -/
theorem print_current_config_count_preserving (s : Session) (m : String) :
    print_current_config s m =
      (s.get_items ("/" ++ m ++ ":*//*")).vals.map print_value ∧
    (print_current_config s m).length =
      (s.get_items ("/" ++ m ++ ":*//*")).val_cnt := by
  constructor
  · apply List.ext_getElem
    · simp [print_current_config, ValueCollection.val_cnt]
    · intro i h1 h2
      simp only [print_current_config, ValueCollection.val, ValueCollection.val_cnt,
        List.getElem_map, List.getElem_range]
      rw [List.getD_eq_getElem?_getD, List.getElem?_eq_getElem (by simpa using h2)]
      rfl
  · simp [print_current_config, ValueCollection.val_cnt]

/-- C3: for a value whose type tag is none of the seventeen kinds
enumerated by the dispatch, `print_value` falls into the final `else`
branch and prints the literal `(unprintable)` after the path of the
value; being a total function, it raises nothing. -/
theorem print_value_unrecognized_tag (v : Value)
    (h : handled_tag v.type = false) :
    print_value v = v.xpath ++ " " ++ " " ++ "(unprintable)" ++ "\n" := by
  cases hv : v.type <;>
    simp_all [handled_tag, print_value, print_value_body]

theorem print_value_unrecognized_tag_witness :
    handled_tag (Value.mk "/x" SrType.SR_UNKNOWN_T default).type = false ∧
    print_value (Value.mk "/x" SrType.SR_UNKNOWN_T default) =
      "/x" ++ " " ++ " " ++ "(unprintable)" ++ "\n" :=
  ⟨rfl, print_value_unrecognized_tag _ rfl⟩

/-- C4: for a value tagged `SR_BOOL_T`, `print_value` prints the token
`true` when the boolean payload is true and the token `false` when it
is false; the two equalities pin the whole output, so no other token
can appear. -/
theorem print_value_bool (v : Value) (h : v.type = SrType.SR_BOOL_T) :
    (v.data.get_bool = true →
      print_value v = v.xpath ++ " " ++ " " ++ "= true" ++ "\n") ∧
    (v.data.get_bool = false →
      print_value v = v.xpath ++ " " ++ " " ++ "= false" ++ "\n") := by
  constructor <;> intro hb <;> simp [print_value, print_value_body, h, hb]

theorem print_value_bool_witness :
    (Value.mk "/b" SrType.SR_BOOL_T default).type = SrType.SR_BOOL_T ∧
    (Value.mk "/b" SrType.SR_BOOL_T default).data.get_bool = false ∧
    print_value (Value.mk "/b" SrType.SR_BOOL_T default) =
      "/b" ++ " " ++ " " ++ "= false" ++ "\n" :=
  ⟨rfl, rfl, (print_value_bool _ rfl).2 rfl⟩

/-- C5: for a value with a handled type tag, `print_value` (a total
function, so it terminates and raises nothing) returns a non-empty
string that contains the path of the value, here as a prefix. -/
theorem print_value_handled_total (v : Value)
    (h : handled_tag v.type = true) :
    print_value v ≠ "" ∧ ∃ s, print_value v = v.xpath ++ s :=
  ⟨print_value_ne_empty v,
   ⟨" " ++ " " ++ print_value_body v ++ "\n", by
      simp [print_value, String.append_assoc]⟩⟩

theorem print_value_handled_total_witness :
    handled_tag (Value.mk "/c" SrType.SR_CONTAINER_T default).type = true ∧
    (print_value (Value.mk "/c" SrType.SR_CONTAINER_T default) ≠ "" ∧
     ∃ s, print_value (Value.mk "/c" SrType.SR_CONTAINER_T default) = "/c" ++ s) :=
  ⟨rfl, print_value_handled_total _ rfl⟩

/-- C9: a value tagged `SR_CONTAINER_T` and a value tagged
`SR_CONTAINER_PRESENCE_T` with the same path are printed identically,
as the line `(container)` after the path: the two tags are not
distinguished in the output. -/
theorem print_value_container_presence_indistinguishable (v w : Value)
    (hv : v.type = SrType.SR_CONTAINER_T)
    (hw : w.type = SrType.SR_CONTAINER_PRESENCE_T)
    (hx : v.xpath = w.xpath) :
    print_value v = print_value w ∧
    print_value v = v.xpath ++ " " ++ " " ++ "(container)" ++ "\n" := by
  simp [print_value, print_value_body, hv, hw, hx]

theorem print_value_container_presence_indistinguishable_witness :
    (Value.mk "/c" SrType.SR_CONTAINER_T default).type = SrType.SR_CONTAINER_T ∧
    print_value (Value.mk "/c" SrType.SR_CONTAINER_T default) =
      print_value (Value.mk "/c" SrType.SR_CONTAINER_PRESENCE_T default) :=
  ⟨rfl,
   (print_value_container_presence_indistinguishable
      (Value.mk "/c" SrType.SR_CONTAINER_T default)
      (Value.mk "/c" SrType.SR_CONTAINER_PRESENCE_T default)
      rfl rfl rfl).1⟩

/-- C7: the change callback prints the header line and then exactly
the output of `print_current_config` on the same session and module
name: a full re-dump, with no diffing of what changed. -/
theorem module_change_cb_redumps (sess : Session) (m : String) :
    module_change_cb sess m =
      ("\n\n ========== CONFIG HAS CHANGED, CURRENT RUNNING CONFIG: ==========\n" ++ "\n")
        :: print_current_config sess m := rfl

/-- C6: with no positional argument (`len(sys.argv) <= 1`), the module
name is the default `ietf-interfaces`, and that same name is both the
one subscribed and the one dumped at startup. -/
theorem default_module_name (argv : List String) (sess : Session)
    (h : argv.length ≤ 1) :
    choose_module_name argv = "ietf-interfaces" ∧
    (run_startup argv sess).subscribed_module = "ietf-interfaces" ∧
    (run_startup argv sess).dumped_module = "ietf-interfaces" ∧
    (run_startup argv sess).startup_output =
      print_current_config sess "ietf-interfaces" := by
  have hc : choose_module_name argv = "ietf-interfaces" := by
    unfold choose_module_name
    rw [dif_neg (by omega)]
  simp [run_startup, hc]

theorem default_module_name_witness :
    (["./application_example.py"] : List String).length ≤ 1 ∧
    choose_module_name ["./application_example.py"] = "ietf-interfaces" ∧
    (run_startup ["./application_example.py"] ⟨fun _ => ⟨[]⟩⟩).subscribed_module =
      "ietf-interfaces" :=
  ⟨by decide,
   (default_module_name ["./application_example.py"] ⟨fun _ => ⟨[]⟩⟩ (by decide)).1,
   (default_module_name ["./application_example.py"] ⟨fun _ => ⟨[]⟩⟩ (by decide)).2.1⟩

/-- C10: the chosen module name depends only on whether `argv[1]`
exists and on its value: two argument vectors that agree at index 1
(or both lack it) yield the same module name, whatever their other
entries. -/
theorem choose_module_name_depends_only_on_arg1 (a1 a2 : List String)
    (h : a1[1]? = a2[1]?) :
    choose_module_name a1 = choose_module_name a2 := by
  unfold choose_module_name
  by_cases h1 : a1.length > 1
  · have hs : a2[1]? = some a1[1] := by
      rw [← h, List.getElem?_eq_getElem h1]
    have h2 : 1 < a2.length := (List.getElem?_eq_some.mp hs).1
    rw [dif_pos h1, dif_pos h2]
    have he : a2[1] = a1[1] := by
      have := List.getElem?_eq_getElem h2
      rw [hs] at this
      exact (Option.some_inj.mp this).symm
    simp [List.get_eq_getElem, he]
  · have hn : a1[1]? = none := by
      rw [List.getElem?_eq_none_iff]; omega
    have h2 : ¬ a2.length > 1 := by
      rw [hn] at h
      have := List.getElem?_eq_none_iff.mp h.symm
      omega
    rw [dif_neg h1, dif_neg h2]

theorem choose_module_name_depends_only_on_arg1_witness :
    (["./a.py", "turing-machine", "extra", "args"] : List String)[1]? =
      (["./b.py", "turing-machine"] : List String)[1]? ∧
    choose_module_name ["./a.py", "turing-machine", "extra", "args"] =
      choose_module_name ["./b.py", "turing-machine"] :=
  ⟨by decide,
   choose_module_name_depends_only_on_arg1
     ["./a.py", "turing-machine", "extra", "args"]
     ["./b.py", "turing-machine"] (by decide)⟩

/-- C8: both catch sites behave as catch-all print-and-continue, at
every raise site of the model.  Conjunct 1: an exception raised during
the startup read (the `get_items` query, the only raise site inside
the inner `try`) is caught by the inner handler, its message is
printed in place, and execution continues through the remaining body
to the event loop and the final exit message.  Conjuncts 2 to 5: an
exception raised by any of the four setup calls of the body — the
connection constructor, the session constructor, the subscription
constructor, or the callback registration — reaches the outer handler,
its message is printed after whatever was already printed, and the
program ends there.  Conjunct 6: an exception raised by the event loop
after the startup read, whatever the outcome of that read, likewise
reaches the outer handler, its message is printed after the full
preceding output, and the program ends without the exit message.
These six cases are exactly the raise sites of `run_program_exc`,
which is a total function into the printed output, so no exception
escapes either site. -/
theorem exceptions_caught_at_both_sites :
    (∀ (argv : List String) (env : Env) (conn : Conn) (sess : SessionExc)
       (subscr : Subscr) (e : String),
       env.connection "example_application" = Except.ok conn →
       env.session conn = Except.ok sess →
       env.subscribe sess = Except.ok subscr →
       env.module_change_subscribe subscr (choose_module_name argv) = Except.ok () →
       sess.get_items ("/" ++ choose_module_name argv ++ ":*//*") = Except.error e →
       env.global_loop = Except.ok () →
       run_program_exc argv env =
         arg_hint argv ++
           ["\n\n ========== READING STARTUP CONFIG: ==========\n" ++ "\n",
            e ++ "\n",
            "\n\n ========== STARTUP CONFIG APPLIED AS RUNNING ==========\n" ++ "\n",
            "Application exit requested, exiting.\n" ++ "\n"]) ∧
    (∀ (argv : List String) (env : Env) (e : String),
       env.connection "example_application" = Except.error e →
       run_program_exc argv env = arg_hint argv ++ [e ++ "\n"]) ∧
    (∀ (argv : List String) (env : Env) (conn : Conn) (e : String),
       env.connection "example_application" = Except.ok conn →
       env.session conn = Except.error e →
       run_program_exc argv env = arg_hint argv ++ [e ++ "\n"]) ∧
    (∀ (argv : List String) (env : Env) (conn : Conn) (sess : SessionExc)
       (e : String),
       env.connection "example_application" = Except.ok conn →
       env.session conn = Except.ok sess →
       env.subscribe sess = Except.error e →
       run_program_exc argv env = arg_hint argv ++ [e ++ "\n"]) ∧
    (∀ (argv : List String) (env : Env) (conn : Conn) (sess : SessionExc)
       (subscr : Subscr) (e : String),
       env.connection "example_application" = Except.ok conn →
       env.session conn = Except.ok sess →
       env.subscribe sess = Except.ok subscr →
       env.module_change_subscribe subscr (choose_module_name argv) = Except.error e →
       run_program_exc argv env = arg_hint argv ++ [e ++ "\n"]) ∧
    (∀ (argv : List String) (env : Env) (conn : Conn) (sess : SessionExc)
       (subscr : Subscr) (e : String),
       env.connection "example_application" = Except.ok conn →
       env.session conn = Except.ok sess →
       env.subscribe sess = Except.ok subscr →
       env.module_change_subscribe subscr (choose_module_name argv) = Except.ok () →
       env.global_loop = Except.error e →
       run_program_exc argv env =
         arg_hint argv ++
           ["\n\n ========== READING STARTUP CONFIG: ==========\n" ++ "\n"] ++
           (match print_current_config_exc sess (choose_module_name argv) with
            | Except.ok lines => lines
            | Except.error e2 => [e2 ++ "\n"]) ++
           ["\n\n ========== STARTUP CONFIG APPLIED AS RUNNING ==========\n" ++ "\n",
            e ++ "\n"]) := by
  refine ⟨?_, ?_, ?_, ?_, ?_, ?_⟩
  · intro argv env conn sess subscr e hc hs hsub hmcs hgi hloop
    simp [run_program_exc, print_current_config_exc, hc, hs, hsub, hmcs, hgi, hloop]
  · intro argv env e hc
    simp [run_program_exc, hc]
  · intro argv env conn e hc hs
    simp [run_program_exc, hc, hs]
  · intro argv env conn sess e hc hs hsub
    simp [run_program_exc, hc, hs, hsub]
  · intro argv env conn sess subscr e hc hs hsub hmcs
    simp [run_program_exc, hc, hs, hsub, hmcs]
  · intro argv env conn sess subscr e hc hs hsub hmcs hloop
    simp [run_program_exc, hc, hs, hsub, hmcs, hloop]

theorem exceptions_caught_at_both_sites_witness :
    (run_program_exc ["./application_example.py"] env_get_items_raises =
      arg_hint ["./application_example.py"] ++
        ["\n\n ========== READING STARTUP CONFIG: ==========\n" ++ "\n",
         "Request failed" ++ "\n",
         "\n\n ========== STARTUP CONFIG APPLIED AS RUNNING ==========\n" ++ "\n",
         "Application exit requested, exiting.\n" ++ "\n"]) ∧
    (run_program_exc ["./application_example.py"] env_connection_raises =
      arg_hint ["./application_example.py"] ++ ["Connecting to sysrepo failed" ++ "\n"]) ∧
    (run_program_exc ["./application_example.py"] env_session_raises =
      arg_hint ["./application_example.py"] ++ ["Session start failed" ++ "\n"]) ∧
    (run_program_exc ["./application_example.py"] env_subscribe_raises =
      arg_hint ["./application_example.py"] ++ ["Subscribe constructor failed" ++ "\n"]) ∧
    (run_program_exc ["./application_example.py"] env_mcs_raises =
      arg_hint ["./application_example.py"] ++ ["Subscription failed" ++ "\n"]) ∧
    (run_program_exc ["./application_example.py"] env_loop_raises =
      arg_hint ["./application_example.py"] ++
        ["\n\n ========== READING STARTUP CONFIG: ==========\n" ++ "\n",
         "\n\n ========== STARTUP CONFIG APPLIED AS RUNNING ==========\n" ++ "\n",
         "Event loop interrupted" ++ "\n"]) :=
  ⟨exceptions_caught_at_both_sites.1 ["./application_example.py"] env_get_items_raises
     ⟨"example_application"⟩ ⟨fun _ => Except.error "Request failed"⟩ ⟨0⟩
     "Request failed" rfl rfl rfl rfl rfl rfl,
   exceptions_caught_at_both_sites.2.1 ["./application_example.py"] env_connection_raises
     "Connecting to sysrepo failed" rfl,
   exceptions_caught_at_both_sites.2.2.1 ["./application_example.py"] env_session_raises
     ⟨"example_application"⟩ "Session start failed" rfl rfl,
   exceptions_caught_at_both_sites.2.2.2.1 ["./application_example.py"] env_subscribe_raises
     ⟨"example_application"⟩ ⟨fun _ => Except.ok ⟨[]⟩⟩ "Subscribe constructor failed"
     rfl rfl rfl,
   exceptions_caught_at_both_sites.2.2.2.2.1 ["./application_example.py"] env_mcs_raises
     ⟨"example_application"⟩ ⟨fun _ => Except.ok ⟨[]⟩⟩ ⟨0⟩ "Subscription failed"
     rfl rfl rfl rfl,
   exceptions_caught_at_both_sites.2.2.2.2.2 ["./application_example.py"] env_loop_raises
     ⟨"example_application"⟩ ⟨fun _ => Except.ok ⟨[]⟩⟩ ⟨0⟩ "Event loop interrupted"
     rfl rfl rfl rfl rfl⟩
